import Mathlib

/-!
Shallow embedding of the portfolio backend (src/app.py).

The program keeps an in-memory OTP store `otp_storage : Dict[str, (str, datetime)]`
mapping a lowercased email to a pair of the 6-digit code and its issue time.
We model the store as an association list `OtpStore` with unique keys maintained
by the operations ("Python dict" semantics: `lookupOtp` finds the entry for a
key, `eraseOtp` removes it, `setOtp` overwrites it), timestamps as natural
numbers counting seconds, and each call to `datetime.now()` as an explicit
time parameter.  `send_otp` and `verify_otp` call `datetime.now()` twice
(once inside `clean_expired_otps` and once later), so they take two time
parameters `now₁ now₂`; a call during which the clock does not advance is
modelled by `now₁ = now₂`.  The random outcome of `generate_otp` is a
parameter (`send_otp` receives the generated code; `generate_otp` itself
receives the sequence of `random.randint(0, 9)` draws), and the success or
failure of the Resend email delivery is the boolean `deliveryOk`.
-/

namespace PortfolioApp

/-- `OTP_EXPIRY_MINUTES = 5` (src/app.py line 32). -/
def OTP_EXPIRY_MINUTES : Nat := 5

/-- `OTP_LENGTH = 6` (src/app.py line 33). -/
def OTP_LENGTH : Nat := 6

/-- The expiry window `timedelta(minutes=OTP_EXPIRY_MINUTES)`, in seconds. -/
def otpExpiryLimit : Nat := OTP_EXPIRY_MINUTES * 60

/-- The in-memory OTP storage: entries `(email, code, timestamp)`. -/
abbrev OtpStore := List (String × String × Nat)

/-- Python dict lookup `otp_storage[email]` / `email in otp_storage`. -/
def lookupOtp (email : String) : OtpStore → Option (String × Nat)
  | [] => none
  | (e, c, t) :: rest => if e = email then some (c, t) else lookupOtp email rest

/-- Python dict deletion `del otp_storage[email]`. -/
def eraseOtp (email : String) (s : OtpStore) : OtpStore :=
  s.filter fun ent => !(ent.1 == email)

/-- Python dict assignment `otp_storage[email] = (code, ts)` (overwrite). -/
def setOtp (email code : String) (ts : Nat) (s : OtpStore) : OtpStore :=
  (email, code, ts) :: eraseOtp email s

/-- `clean_expired_otps` (src/app.py lines 122-130): remove every entry with
`current_time - timestamp > timedelta(minutes=OTP_EXPIRY_MINUTES)`. -/
def clean_expired_otps (now : Nat) (s : OtpStore) : OtpStore :=
  s.filter fun ent => !decide (now - ent.2.2 > otpExpiryLimit)

/-- Python `str.lower()` (ASCII case mapping, per character). -/
def pyLower (s : String) : String :=
  String.mk (s.data.map Char.toLower)

/-- The code points Python treats as whitespace (CPython's
`Py_UNICODE_ISSPACE`): `\t \n \x0b \x0c \r \x1c \x1d \x1e \x1f`, space,
`\x85` (NEL), `\xa0` (NBSP), and the Unicode space characters. -/
def pyWhitespace : List Nat :=
  [0x09, 0x0A, 0x0B, 0x0C, 0x0D, 0x1C, 0x1D, 0x1E, 0x1F, 0x20, 0x85, 0xA0,
   0x1680, 0x2000, 0x2001, 0x2002, 0x2003, 0x2004, 0x2005, 0x2006, 0x2007,
   0x2008, 0x2009, 0x200A, 0x2028, 0x2029, 0x202F, 0x205F, 0x3000]

/-- The whitespace test used by Python `str.strip()` with no argument. -/
def pyIsSpace (c : Char) : Bool :=
  pyWhitespace.contains c.toNat

/-- Python `str.strip()`: drop leading and trailing whitespace. -/
def pyStrip (s : String) : String :=
  String.mk (((s.data.dropWhile pyIsSpace).reverse.dropWhile pyIsSpace).reverse)

/-- `generate_otp` (src/app.py lines 76-78):
`''.join([str(random.randint(0, 9)) for _ in range(OTP_LENGTH)])`, with
`draw i` the outcome of the `i`-th call to `random.randint(0, 9)`. -/
def generate_otp (draw : Nat → Nat) : String :=
  String.join ((List.range OTP_LENGTH).map fun i => Nat.repr (draw i))

/-- Outcome of the `/send-otp` handler. -/
inductive SendResult where
  | deliveryFailed
  | sent (email : String)
deriving DecidableEq

/-- `send_otp` (src/app.py lines 138-161): lowercase the email, sweep expired
entries (at time `now₁`), generate a code, attempt delivery; on delivery
failure raise HTTP 500 leaving the store as swept; on success store the
entry with the current timestamp (`now₂`).  `otp` is the code returned by
`generate_otp`. -/
def send_otp (now₁ now₂ : Nat) (emailRaw otp : String) (deliveryOk : Bool)
    (s : OtpStore) : SendResult × OtpStore :=
  if deliveryOk then
    (SendResult.sent (pyLower emailRaw),
      setOtp (pyLower emailRaw) otp now₂ (clean_expired_otps now₁ s))
  else
    (SendResult.deliveryFailed, clean_expired_otps now₁ s)

/-- Outcome of the `/verify-otp` handler; the three error constructors carry
the three distinct HTTP 400 details of src/app.py. -/
inductive VerifyResult where
  | notFound
  | expired
  | mismatch
  | success
deriving DecidableEq

/-- `verify_otp` (src/app.py lines 164-203): lowercase the email, strip the
submitted code, sweep expired entries (at time `now₁`), then: no entry →
`notFound`; entry older than the window at time `now₂` → delete it,
`expired`; stored code differs from the stripped submission → `mismatch`
(store untouched); otherwise delete the entry and succeed. -/
def verify_otp (now₁ now₂ : Nat) (emailRaw otpRaw : String) (s : OtpStore) :
    VerifyResult × OtpStore :=
  match lookupOtp (pyLower emailRaw) (clean_expired_otps now₁ s) with
  | none => (VerifyResult.notFound, clean_expired_otps now₁ s)
  | some (stored, ts) =>
    if now₂ - ts > otpExpiryLimit then
      (VerifyResult.expired, eraseOtp (pyLower emailRaw) (clean_expired_otps now₁ s))
    else if stored ≠ pyStrip otpRaw then
      (VerifyResult.mismatch, clean_expired_otps now₁ s)
    else
      (VerifyResult.success, eraseOtp (pyLower emailRaw) (clean_expired_otps now₁ s))

/-- `True` when every entry of the store is within the expiry window at `now`. -/
def storeFresh (now : Nat) (s : OtpStore) : Bool :=
  s.all fun ent => decide (now - ent.2.2 ≤ otpExpiryLimit)

/-- States `(time, store)` reachable by any sequence of `send_otp` /
`verify_otp` calls with arbitrary passage of time in between (the store is
only mutated by the handlers; between calls it is unchanged while the clock
advances). -/
inductive Reachable : Nat → OtpStore → Prop where
  | init : ∀ t, Reachable t []
  | tick : ∀ {t s} (t₂ : Nat), Reachable t s → t ≤ t₂ → Reachable t₂ s
  | send : ∀ {t s} (e otp : String) (ok : Bool), Reachable t s →
      Reachable t (send_otp t t e otp ok s).2
  | verify : ∀ {t s} (e sub : String), Reachable t s →
      Reachable t (verify_otp t t e sub s).2

section StoreLemmas

/-- A successful lookup returns an entry of the list. -/
theorem lookupOtp_mem {email c : String} {ts : Nat} {s : OtpStore}
    (h : lookupOtp email s = some (c, ts)) : (email, c, ts) ∈ s := by
  induction s with
  | nil => simp [lookupOtp] at h
  | cons hd tl ih =>
    obtain ⟨e, c₀, t₀⟩ := hd
    by_cases he : e = email
    · subst he
      rw [lookupOtp, if_pos rfl] at h
      obtain ⟨rfl, rfl⟩ := Prod.mk.injEq .. ▸ Option.some.injEq .. ▸ h
      exact List.mem_cons_self ..
    · rw [lookupOtp, if_neg he] at h
      exact List.mem_cons_of_mem _ (ih h)

/-- A lookup miss stays a miss after filtering. -/
theorem lookupOtp_filter_none {email : String} {s : OtpStore}
    (p : String × String × Nat → Bool)
    (h : lookupOtp email s = none) : lookupOtp email (s.filter p) = none := by
  induction s with
  | nil => simp [lookupOtp]
  | cons hd tl ih =>
    obtain ⟨e, c₀, t₀⟩ := hd
    by_cases he : e = email
    · rw [lookupOtp, if_pos he] at h
      exact absurd h (by simp)
    · rw [lookupOtp, if_neg he] at h
      rw [List.filter_cons]
      split
      · rw [lookupOtp, if_neg he]
        exact ih h
      · exact ih h

/-- A looked-up entry that the filter keeps is still the entry found after
filtering. -/
theorem lookupOtp_filter_pos {email c : String} {ts : Nat} {s : OtpStore}
    (p : String × String × Nat → Bool)
    (h : lookupOtp email s = some (c, ts)) (hp : p (email, c, ts) = true) :
    lookupOtp email (s.filter p) = some (c, ts) := by
  induction s with
  | nil => simp [lookupOtp] at h
  | cons hd tl ih =>
    obtain ⟨e, c₀, t₀⟩ := hd
    by_cases he : e = email
    · subst he
      rw [lookupOtp, if_pos rfl] at h
      obtain ⟨rfl, rfl⟩ := Prod.mk.injEq .. ▸ Option.some.injEq .. ▸ h
      rw [List.filter_cons, if_pos hp, lookupOtp, if_pos rfl]
    · rw [lookupOtp, if_neg he] at h
      rw [List.filter_cons]
      split
      · rw [lookupOtp, if_neg he]
        exact ih h
      · exact ih h

/-- If no entry of the list has the key, lookup misses. -/
theorem lookupOtp_eq_none {email : String} {s : OtpStore}
    (h : ∀ ent ∈ s, ent.1 ≠ email) : lookupOtp email s = none := by
  induction s with
  | nil => rfl
  | cons hd tl ih =>
    obtain ⟨e, c₀, t₀⟩ := hd
    rw [lookupOtp, if_neg (h (e, c₀, t₀) (List.mem_cons_self ..))]
    exact ih fun ent hm => h ent (List.mem_cons_of_mem _ hm)

/-- Deleting a key makes its lookup miss. -/
theorem lookupOtp_erase_self (email : String) (s : OtpStore) :
    lookupOtp email (eraseOtp email s) = none := by
  refine lookupOtp_eq_none fun ent hm => ?_
  have := (List.mem_filter.mp hm).2
  simpa using this

/-- With no duplicate keys, a looked-up entry that the filter drops leaves no
entry for its key after filtering. -/
theorem lookupOtp_filter_neg {email c : String} {ts : Nat} {s : OtpStore}
    (p : String × String × Nat → Bool)
    (hnd : (s.map fun ent => ent.1).Nodup)
    (h : lookupOtp email s = some (c, ts)) (hp : p (email, c, ts) = false) :
    lookupOtp email (s.filter p) = none := by
  induction s with
  | nil => simp [lookupOtp] at h
  | cons hd tl ih =>
    obtain ⟨e, c₀, t₀⟩ := hd
    rw [List.map_cons, List.nodup_cons] at hnd
    by_cases he : e = email
    · subst he
      rw [lookupOtp, if_pos rfl] at h
      obtain ⟨rfl, rfl⟩ := Prod.mk.injEq .. ▸ Option.some.injEq .. ▸ h
      rw [List.filter_cons, if_neg (by simp [hp])]
      refine lookupOtp_eq_none fun ent hm => ?_
      intro hk
      have hmem : ent.1 ∈ List.map (fun ent => ent.1) tl :=
        List.mem_map_of_mem _ (List.mem_of_mem_filter hm)
      rw [hk] at hmem
      exact hnd.1 hmem
    · rw [lookupOtp, if_neg he] at h
      rw [List.filter_cons]
      split
      · rw [lookupOtp, if_neg he]
        exact ih hnd.2 h
      · exact ih hnd.2 h

/-- Membership in the swept store: exactly the entries within the window. -/
theorem mem_clean_iff {now : Nat} {s : OtpStore} {ent : String × String × Nat} :
    ent ∈ clean_expired_otps now s ↔ ent ∈ s ∧ now - ent.2.2 ≤ otpExpiryLimit := by
  simp [clean_expired_otps, List.mem_filter, Nat.not_lt]

/-- Every entry found after the sweep at `now` is within the window at `now`. -/
theorem lookupOtp_clean_fresh {now : Nat} {email c : String} {ts : Nat}
    {s : OtpStore} (h : lookupOtp email (clean_expired_otps now s) = some (c, ts)) :
    now - ts ≤ otpExpiryLimit :=
  (mem_clean_iff.mp (lookupOtp_mem h)).2

/-- The sweep at `now` leaves a fresh store (at `now`). -/
theorem storeFresh_clean (now : Nat) (s : OtpStore) :
    storeFresh now (clean_expired_otps now s) = true := by
  rw [storeFresh, List.all_eq_true]
  intro ent hm
  exact decide_eq_true (mem_clean_iff.mp hm).2

/-- Deleting a key from a fresh store keeps it fresh. -/
theorem storeFresh_erase {now : Nat} {s : OtpStore} (email : String)
    (h : storeFresh now s = true) : storeFresh now (eraseOtp email s) = true := by
  rw [storeFresh, List.all_eq_true] at h ⊢
  exact fun ent hm => h ent (List.mem_of_mem_filter hm)

/-- An entry within the window passes the sweep's filter predicate. -/
theorem keep_of_fresh {now ts : Nat} (h : now - ts ≤ otpExpiryLimit) :
    (!decide (now - ts > otpExpiryLimit)) = true := by
  simp only [Bool.not_eq_true', decide_eq_false_iff_not]
  omega

/-- An entry strictly past the window fails the sweep's filter predicate. -/
theorem drop_of_stale {now ts : Nat} (h : otpExpiryLimit < now - ts) :
    (!decide (now - ts > otpExpiryLimit)) = false := by
  simp only [Bool.not_eq_false', decide_eq_true_eq]
  exact h

/-- Looking up a key right after overwriting it returns the new entry. -/
theorem lookupOtp_set_self (email code : String) (ts : Nat) (s : OtpStore) :
    lookupOtp email (setOtp email code ts s) = some (code, ts) := by
  rw [setOtp, lookupOtp, if_pos rfl]

end StoreLemmas

/-- One entry of the `messages` list sent to the completion provider. -/
structure ChatMessage where
  role : String
  content : String
deriving DecidableEq

/-- The fixed system instruction of the `/ask` handler (src/app.py lines 222-230). -/
def system_prompt : String :=
  "You are a friendly portfolio assistant helping visitors learn about me. " ++
  "Use the provided profile information to answer questions about my background, skills, experience, and projects. " ++
  "Be conversational and engaging when responding. " ++
  "If someone asks about something unrelated to my profile (like general topics, current events, or other people), " ++
  "politely redirect them by saying something like \x27I\x27m here to talk about my background and experience. " ++
  "Feel free to ask me about my skills, projects, or professional journey!\x27 " ++
  "Stay focused on helping people get to know me through the information provided."

/-- `load_profile_text` (src/app.py lines 63-66): `infoFile` is the content of
`information.txt` when the file exists, `none` when it is missing. -/
def load_profile_text (infoFile : Option String) : Except String String :=
  match infoFile with
  | none => Except.error "information.txt not found"
  | some txt => Except.ok (pyStrip txt)

/-- `get_client` (src/app.py lines 69-73): `apiKey` is the value of the
`GROQ_API_KEY` environment variable when set. -/
def get_client (apiKey : Option String) : Except String Unit :=
  match apiKey with
  | none => Except.error "GROQ_API_KEY is not set"
  | some _ => Except.ok ()

/-- Outcome of the `/ask` handler: the four HTTP error translations
(400 / 500 / 500 / 502) and the success payload. -/
inductive AskResult where
  | invalidInput
  | profileUnavailable (msg : String)
  | configMissing (msg : String)
  | upstreamFailed (msg : String)
  | answer (text : String)
deriving DecidableEq

/-- `ask` (src/app.py lines 206-250): strip the question and reject it when
empty; load the profile text; build the Groq client; send the two-message
prompt to the completion provider (`provider` maps the messages to the first
choice content, or to the raised error); return the stripped answer. -/
def ask (question : String) (infoFile apiKey : Option String)
    (provider : List ChatMessage → Except String String) : AskResult :=
  if pyStrip question = "" then AskResult.invalidInput
  else
    match load_profile_text infoFile with
    | Except.error msg => AskResult.profileUnavailable msg
    | Except.ok profile_text =>
      match get_client apiKey with
      | Except.error msg => AskResult.configMissing msg
      | Except.ok _ =>
        match provider
            [⟨"system", system_prompt⟩,
             ⟨"user", "Profile:\n" ++ profile_text ++ "\n\nQuestion: " ++ pyStrip question⟩] with
        | Except.error e => AskResult.upstreamFailed ("Groq API error: " ++ e)
        | Except.ok content => AskResult.answer (pyStrip content)

section StringLemmas

/-- Stripping an all-whitespace string yields the empty string. -/
theorem pyStrip_eq_empty {q : String}
    (h : ∀ c ∈ q.data, pyIsSpace c = true) : pyStrip q = "" := by
  have h₁ : q.data.dropWhile pyIsSpace = [] :=
    List.dropWhile_eq_nil_iff.mpr fun c hc => h c hc
  rw [pyStrip, h₁]
  rfl

/-- An element that the `dropWhile` predicate rejects survives `dropWhile`. -/
theorem mem_dropWhile_of_not {α : Type} (p : α → Bool) {x : α} {l : List α}
    (hx : x ∈ l) (hpx : p x = false) : x ∈ l.dropWhile p := by
  induction l with
  | nil => cases hx
  | cons a as ih =>
    rw [List.dropWhile_cons]
    split
    · rcases List.mem_cons.mp hx with rfl | hmem
      · simp_all
      · exact ih hmem
    · exact hx

/-- Stripping a string that has a non-whitespace character is nonempty. -/
theorem pyStrip_ne_empty {q : String} {c : Char}
    (hc : c ∈ q.data) (hns : pyIsSpace c = false) : pyStrip q ≠ "" := by
  intro hcon
  have h₁ : c ∈ q.data.dropWhile pyIsSpace := mem_dropWhile_of_not _ hc hns
  have h₂ : c ∈ (q.data.dropWhile pyIsSpace).reverse.dropWhile pyIsSpace :=
    mem_dropWhile_of_not _ (List.mem_reverse.mpr h₁) hns
  have h₃ : c ∈ (pyStrip q).data := by
    rw [pyStrip]
    exact List.mem_reverse.mpr h₂
  rw [hcon] at h₃
  cases h₃

/-- `str(n)` for a digit `n ≤ 9` is a single decimal-digit character. -/
theorem repr_digit {n : Nat} (h : n ≤ 9) :
    (Nat.repr n).length = 1 ∧ ∀ c ∈ (Nat.repr n).data, c.isDigit = true := by
  interval_cases n <;> exact ⟨by decide, by decide⟩

end StringLemmas

/-- C1: a `verify_otp` call whose stripped submission equals the stored code
for a live entry whose age does not exceed the window succeeds and deletes
the entry, so an immediately following identical call fails with `notFound`:
the code is single-use. -/
theorem C1_single_use (t : Nat) (e sub c : String) (ts : Nat) (s : OtpStore)
    (hl : lookupOtp (pyLower e) s = some (c, ts))
    (hage : t - ts ≤ otpExpiryLimit)
    (hc : pyStrip sub = c) :
    (verify_otp t t e sub s).1 = VerifyResult.success ∧
    (verify_otp t t e sub (verify_otp t t e sub s).2).1 = VerifyResult.notFound := by
  have hl₁ : lookupOtp (pyLower e) (clean_expired_otps t s) = some (c, ts) := by
    rw [clean_expired_otps]
    exact lookupOtp_filter_pos _ hl (keep_of_fresh hage)
  have hv : verify_otp t t e sub s =
      (VerifyResult.success, eraseOtp (pyLower e) (clean_expired_otps t s)) := by
    simp only [verify_otp, hl₁]
    rw [if_neg (by omega), if_neg (by simp [hc])]
  have hnone : lookupOtp (pyLower e)
      (clean_expired_otps t (eraseOtp (pyLower e) (clean_expired_otps t s))) = none := by
    rw [clean_expired_otps]
    exact lookupOtp_filter_none _ (lookupOtp_erase_self _ _)
  refine ⟨by rw [hv], ?_⟩
  rw [hv]
  simp only [verify_otp, hnone]

/-- Witness for C1 at a concrete input (the email is normalized and the
submission is stripped before comparison). -/
theorem C1_single_use_w :
    (verify_otp 0 0 "A@B.c" " 123456 " [("a@b.c", "123456", 0)]).1 =
      VerifyResult.success ∧
    (verify_otp 0 0 "A@B.c" " 123456 "
        (verify_otp 0 0 "A@B.c" " 123456 " [("a@b.c", "123456", 0)]).2).1 =
      VerifyResult.notFound :=
  C1_single_use 0 "A@B.c" " 123456 " "123456" 0 [("a@b.c", "123456", 0)]
    (by decide) (by decide) (by decide)

/-- C2 fails as stated: the sweep is lazy, so between calls an entry stays in
the store while the clock runs past its expiry.  Concretely, the store
obtained by a successful `send_otp` at time 0, observed at time
`otpExpiryLimit + 1` with no intervening call, still holds the entry, whose
age then exceeds the window. -/
theorem C2_counterexample :
    ¬ (∀ (t : Nat) (s : OtpStore), Reachable t s →
         ∀ ent ∈ s, t - ent.2.2 ≤ otpExpiryLimit) := by
  intro h
  have h₀ : Reachable 0 (send_otp 0 0 "a@b.c" "123456" true []).2 :=
    Reachable.send "a@b.c" "123456" true (Reachable.init 0)
  have h₁ : Reachable (otpExpiryLimit + 1) (send_otp 0 0 "a@b.c" "123456" true []).2 :=
    Reachable.tick _ h₀ (Nat.zero_le _)
  have h₂ : otpExpiryLimit + 1 - 0 ≤ otpExpiryLimit :=
    h _ _ h₁ ("a@b.c", "123456", 0) (by decide)
  omega

/-- C2 amended: the store is free of over-age entries immediately after each
`send_otp` or `verify_otp` call (taken with the clock not advancing during
the call); between calls an expired entry may linger until the next sweep. -/
theorem C2_post_call_fresh (t : Nat) (e otp sub : String) (ok : Bool) (s : OtpStore) :
    storeFresh t (send_otp t t e otp ok s).2 = true ∧
    storeFresh t (verify_otp t t e sub s).2 = true := by
  constructor
  · cases ok with
    | false => exact storeFresh_clean t s
    | true =>
      rw [show (send_otp t t e otp true s).2 =
        ((pyLower e), otp, t) :: eraseOtp (pyLower e) (clean_expired_otps t s) from rfl]
      rw [storeFresh, List.all_cons, Bool.and_eq_true]
      exact ⟨by simp only [decide_eq_true_eq]; omega,
        storeFresh_erase _ (storeFresh_clean t s)⟩
  · rw [verify_otp]
    split
    · exact storeFresh_clean t s
    · split
      · exact storeFresh_erase _ (storeFresh_clean t s)
      · split
        · exact storeFresh_clean t s
        · exact storeFresh_erase _ (storeFresh_clean t s)

/-- C3 fails as stated: calling `verify_otp` strictly after the window has
passed yields `notFound`, not `expired` — the initial sweep has already
deleted the entry (here: stored by a successful `send_otp` at time 0, with
the correct code submitted at time `otpExpiryLimit + 1`). -/
theorem C3_counterexample :
    (verify_otp (otpExpiryLimit + 1) (otpExpiryLimit + 1) "a@b.c" "123456"
        (send_otp 0 0 "a@b.c" "123456" true []).2).1 = VerifyResult.notFound ∧
    VerifyResult.notFound ≠ VerifyResult.expired :=
  ⟨by decide, by decide⟩

/-- C3 amended: a `verify_otp` call strictly after the window (clock held
fixed during the call, store keyed without duplicates) fails with `notFound`
regardless of the submitted code: the sweep deletes the entry before lookup,
and the `notFound` message covers expiry. -/
theorem C3_expired_gives_notFound (t : Nat) (e sub c : String) (ts : Nat) (s : OtpStore)
    (hnd : (s.map fun ent => ent.1).Nodup)
    (hl : lookupOtp (pyLower e) s = some (c, ts))
    (hage : otpExpiryLimit < t - ts) :
    (verify_otp t t e sub s).1 = VerifyResult.notFound := by
  have hnone : lookupOtp (pyLower e) (clean_expired_otps t s) = none := by
    rw [clean_expired_otps]
    exact lookupOtp_filter_neg _ hnd hl (drop_of_stale hage)
  simp only [verify_otp, hnone]

/-- Witness for the amended C3 at a concrete input. -/
theorem C3_expired_gives_notFound_w :
    (verify_otp (otpExpiryLimit + 301) (otpExpiryLimit + 301) "a@b.c" "999999"
        [("a@b.c", "123456", 0)]).1 = VerifyResult.notFound :=
  C3_expired_gives_notFound (otpExpiryLimit + 301) "a@b.c" "999999" "123456" 0
    [("a@b.c", "123456", 0)] (by decide) (by decide) (by decide)

/-- C4: when email delivery fails, `send_otp` signals `deliveryFailed` and
the store is exactly the swept store — no entry is created or overwritten. -/
theorem C4_delivery_failure_atomic (t₁ t₂ : Nat) (e otp : String) (s : OtpStore) :
    (send_otp t₁ t₂ e otp false s).1 = SendResult.deliveryFailed ∧
    (send_otp t₁ t₂ e otp false s).2 = clean_expired_otps t₁ s :=
  ⟨rfl, rfl⟩

/-- C5: a wrong submission against a live, non-expired entry fails with
`mismatch` and leaves the entry (code and timestamp) in place, so a later
correct submission before expiry still succeeds. -/
theorem C5_mismatch_retains (t t₂ : Nat) (e w sub c : String) (ts : Nat) (s : OtpStore)
    (hl : lookupOtp (pyLower e) s = some (c, ts))
    (hage : t - ts ≤ otpExpiryLimit)
    (hw : pyStrip w ≠ c)
    (hage₂ : t₂ - ts ≤ otpExpiryLimit)
    (hsub : pyStrip sub = c) :
    (verify_otp t t e w s).1 = VerifyResult.mismatch ∧
    lookupOtp (pyLower e) (verify_otp t t e w s).2 = some (c, ts) ∧
    (verify_otp t₂ t₂ e sub (verify_otp t t e w s).2).1 = VerifyResult.success := by
  have hl₁ : lookupOtp (pyLower e) (clean_expired_otps t s) = some (c, ts) := by
    rw [clean_expired_otps]
    exact lookupOtp_filter_pos _ hl (keep_of_fresh hage)
  have hv : verify_otp t t e w s = (VerifyResult.mismatch, clean_expired_otps t s) := by
    simp only [verify_otp, hl₁]
    rw [if_neg (by omega), if_pos (fun hcc => hw hcc.symm)]
  have hl₂ : lookupOtp (pyLower e)
      (clean_expired_otps t₂ (clean_expired_otps t s)) = some (c, ts) := by
    rw [clean_expired_otps]
    exact lookupOtp_filter_pos _ hl₁ (keep_of_fresh hage₂)
  refine ⟨by rw [hv], by rw [hv]; exact hl₁, ?_⟩
  rw [hv]
  simp only [verify_otp, hl₂]
  rw [if_neg (by omega), if_neg (by simp [hsub])]

/-- Witness for C5 at a concrete input. -/
theorem C5_mismatch_retains_w :
    (verify_otp 0 0 "a@b.c" "000000" [("a@b.c", "123456", 0)]).1 =
      VerifyResult.mismatch ∧
    lookupOtp (pyLower "a@b.c")
        (verify_otp 0 0 "a@b.c" "000000" [("a@b.c", "123456", 0)]).2 =
      some ("123456", 0) ∧
    (verify_otp 1 1 "a@b.c" "123456"
        (verify_otp 0 0 "a@b.c" "000000" [("a@b.c", "123456", 0)]).2).1 =
      VerifyResult.success :=
  C5_mismatch_retains 0 1 "a@b.c" "000000" "123456" "123456" 0
    [("a@b.c", "123456", 0)] (by decide) (by decide) (by decide) (by decide) (by decide)

/-- C6 fails as stated: the uniform generator can produce the same code for
both requests (here every draw is 1, giving "111111" twice); the second
`send_otp` succeeds, yet verifying with the first request's code succeeds
rather than fails. -/
theorem C6_counterexample :
    generate_otp (fun _ => 1) = "111111" ∧
    (send_otp 0 0 "a@b.c" (generate_otp fun _ => 1) true
        (send_otp 0 0 "a@b.c" (generate_otp fun _ => 1) true []).2).1 =
      SendResult.sent "a@b.c" ∧
    (verify_otp 0 0 "a@b.c" (generate_otp fun _ => 1)
        (send_otp 0 0 "a@b.c" (generate_otp fun _ => 1) true
          (send_otp 0 0 "a@b.c" (generate_otp fun _ => 1) true []).2).2).1 =
      VerifyResult.success :=
  ⟨by decide, by decide, by decide⟩

/-- C6 amended: a second successful `send_otp` overwrites the first entry —
the store then maps the email to the second code — and, provided the second
code differs from the (stripped) first code, verifying with the first code
fails with `mismatch`. -/
theorem C6_overwrite_invalidates (t : Nat) (e otp₁ otp₂ : String) (s : OtpStore)
    (hne : otp₂ ≠ pyStrip otp₁) :
    lookupOtp (pyLower e)
        (send_otp t t e otp₂ true (send_otp t t e otp₁ true s).2).2 =
      some (otp₂, t) ∧
    (verify_otp t t e otp₁
        (send_otp t t e otp₂ true (send_otp t t e otp₁ true s).2).2).1 =
      VerifyResult.mismatch := by
  have hstore : (send_otp t t e otp₂ true (send_otp t t e otp₁ true s).2).2 =
      setOtp (pyLower e) otp₂ t
        (clean_expired_otps t (send_otp t t e otp₁ true s).2) := rfl
  have hl : lookupOtp (pyLower e)
      (send_otp t t e otp₂ true (send_otp t t e otp₁ true s).2).2 =
      some (otp₂, t) := by
    rw [hstore]
    exact lookupOtp_set_self _ _ _ _
  refine ⟨hl, ?_⟩
  have hl₁ : lookupOtp (pyLower e)
      (clean_expired_otps t
        (send_otp t t e otp₂ true (send_otp t t e otp₁ true s).2).2) =
      some (otp₂, t) := by
    rw [clean_expired_otps]
    exact lookupOtp_filter_pos _ hl (@keep_of_fresh t t (by omega))
  simp only [verify_otp, hl₁]
  rw [if_neg (by omega), if_pos hne]

/-- Witness for the amended C6 at a concrete input. -/
theorem C6_overwrite_invalidates_w :
    lookupOtp (pyLower "a@b.c")
        (send_otp 0 0 "a@b.c" "222222" true
          (send_otp 0 0 "a@b.c" "111111" true []).2).2 = some ("222222", 0) ∧
    (verify_otp 0 0 "a@b.c" "111111"
        (send_otp 0 0 "a@b.c" "222222" true
          (send_otp 0 0 "a@b.c" "111111" true []).2).2).1 =
      VerifyResult.mismatch :=
  C6_overwrite_invalidates 0 "a@b.c" "111111" "222222" [] (by decide)

/-- C7: a question that strips to nothing is rejected with `invalidInput`
for every profile state, key state and provider behaviour (in particular
before the profile is read or the provider is contacted), while a question
with any non-whitespace character passes this check. -/
theorem C7_question_gate (q : String) (infoFile apiKey : Option String)
    (provider : List ChatMessage → Except String String) :
    ((∀ c ∈ q.data, pyIsSpace c = true) →
        ask q infoFile apiKey provider = AskResult.invalidInput) ∧
    ((∃ c ∈ q.data, pyIsSpace c = false) →
        ask q infoFile apiKey provider ≠ AskResult.invalidInput) := by
  constructor
  · intro h
    rw [ask, if_pos (pyStrip_eq_empty h)]
  · rintro ⟨c, hc, hns⟩
    rw [ask, if_neg (pyStrip_ne_empty hc hns)]
    rcases infoFile with _ | txt
    · simp [load_profile_text]
    · rcases apiKey with _ | k
      · simp [load_profile_text, get_client]
      · simp only [load_profile_text, get_client]
        split <;> simp

/-- Witness for C7: a whitespace-only question is rejected even with no
profile file, no API key and a failing provider; a real question is not. -/
theorem C7_question_gate_w :
    ask "   " none none (fun _ => Except.error "down") = AskResult.invalidInput ∧
    ask "What are your skills?" (some "profile") (some "key")
        (fun _ => Except.ok " an answer ") ≠ AskResult.invalidInput :=
  ⟨(C7_question_gate "   " none none (fun _ => Except.error "down")).1 (by decide),
   (C7_question_gate "What are your skills?" (some "profile") (some "key")
      (fun _ => Except.ok " an answer ")).2 ⟨'W', by decide, by decide⟩⟩

/-- C8: whatever digits the random generator draws, `generate_otp` returns a
string of exactly 6 characters, each a decimal digit. -/
theorem C8_generate_otp_shape (draw : Nat → Nat)
    (hd : ∀ i, i < OTP_LENGTH → draw i ≤ 9) :
    (generate_otp draw).length = 6 ∧
    ∀ c ∈ (generate_otp draw).data, c.isDigit = true := by
  have h0 := repr_digit (hd 0 (by decide))
  have h1 := repr_digit (hd 1 (by decide))
  have h2 := repr_digit (hd 2 (by decide))
  have h3 := repr_digit (hd 3 (by decide))
  have h4 := repr_digit (hd 4 (by decide))
  have h5 := repr_digit (hd 5 (by decide))
  have hjoin : generate_otp draw =
      ((((("" ++ Nat.repr (draw 0)) ++ Nat.repr (draw 1)) ++ Nat.repr (draw 2)) ++
        Nat.repr (draw 3)) ++ Nat.repr (draw 4)) ++ Nat.repr (draw 5) := rfl
  have hnil : ("" : String).data = ([] : List Char) := rfl
  constructor
  · rw [hjoin]
    simp only [String.length_append]
    rw [h0.1, h1.1, h2.1, h3.1, h4.1, h5.1]
    rfl
  · intro c hc
    rw [hjoin] at hc
    simp only [String.data_append, hnil, List.mem_append, List.not_mem_nil,
      false_or] at hc
    rcases hc with ((((hcc | hcc) | hcc) | hcc) | hcc) | hcc
    · exact h0.2 c hcc
    · exact h1.2 c hcc
    · exact h2.2 c hcc
    · exact h3.2 c hcc
    · exact h4.2 c hcc
    · exact h5.2 c hcc

/-- Witness for C8 with every draw equal to 7. -/
theorem C8_generate_otp_shape_w :
    (generate_otp fun _ => 7).length = 6 ∧
    ∀ c ∈ (generate_otp fun _ => 7).data, c.isDigit = true :=
  C8_generate_otp_shape (fun _ => 7) (fun _ _ => (by decide : (7 : Nat) ≤ 9))

/-- C9: when the clock does not advance during a `verify_otp` call (both
`datetime.now()` readings equal), the `expired` branch is unreachable: the
initial sweep already removed every entry strictly older than the window,
so the call returns `success`, `notFound` or `mismatch` only. -/
theorem C9_expired_unreachable (t : Nat) (e sub : String) (s : OtpStore) :
    (verify_otp t t e sub s).1 ≠ VerifyResult.expired := by
  cases hl : lookupOtp (pyLower e) (clean_expired_otps t s) with
  | none => simp [verify_otp, hl]
  | some p =>
    obtain ⟨c, ts⟩ := p
    have hfresh := lookupOtp_clean_fresh hl
    simp only [verify_otp, hl]
    rw [if_neg (by omega)]
    split <;> simp

/-- C10: expiry is strict.  The sweep keeps exactly the entries whose age is
at most the window, each unchanged (code and timestamp), so an entry whose
age equals the window exactly is retained and — with the correct code —
`verify_otp` still succeeds at that exact age. -/
theorem C10_expiry_boundary_strict (t : Nat) (e sub c : String) (ts : Nat) (s : OtpStore)
    (hl : lookupOtp (pyLower e) s = some (c, ts))
    (hage : t - ts = otpExpiryLimit)
    (hsub : pyStrip sub = c) :
    (∀ ent : String × String × Nat,
        ent ∈ clean_expired_otps t s ↔ ent ∈ s ∧ t - ent.2.2 ≤ otpExpiryLimit) ∧
    lookupOtp (pyLower e) (clean_expired_otps t s) = some (c, ts) ∧
    (verify_otp t t e sub s).1 = VerifyResult.success := by
  have hl₁ : lookupOtp (pyLower e) (clean_expired_otps t s) = some (c, ts) := by
    rw [clean_expired_otps]
    exact lookupOtp_filter_pos _ hl (@keep_of_fresh t ts (by omega))
  refine ⟨fun ent => mem_clean_iff, hl₁, ?_⟩
  simp only [verify_otp, hl₁]
  rw [if_neg (by omega), if_neg (by simp [hsub])]

/-- Witness for C10 at an entry whose age is exactly the window. -/
theorem C10_expiry_boundary_strict_w :
    lookupOtp (pyLower "a@b.c")
        (clean_expired_otps otpExpiryLimit [("a@b.c", "123456", 0)]) =
      some ("123456", 0) ∧
    (verify_otp otpExpiryLimit otpExpiryLimit "a@b.c" "123456"
        [("a@b.c", "123456", 0)]).1 = VerifyResult.success :=
  ⟨(C10_expiry_boundary_strict otpExpiryLimit "a@b.c" "123456" "123456" 0
      [("a@b.c", "123456", 0)] (by decide) (by decide) (by decide)).2.1,
   (C10_expiry_boundary_strict otpExpiryLimit "a@b.c" "123456" "123456" 0
      [("a@b.c", "123456", 0)] (by decide) (by decide) (by decide)).2.2⟩

end PortfolioApp
